import Mathlib

/-!
Verification of the multimodal content-moderation gateway.

This file gives a shallow embedding of the repository's core logic:

* `types/moderation_result.py` — the pydantic result schema family
  (a base class with a required `rationale`, and four per-category
  subclasses with required flag fields);
* `agents/text_agent.py` — the `moderate_text` wrapper and the output
  schema its agent enforces;
* `utils.py` — `detect_file_type`;
* `gradio_app.py` — `MODERATION_CONFIG`, `_call_text_moderation`,
  `_call_media_moderation` and `check_content_safety` (the safety gate);
* `evals/utils.py` — `create_repeated_cases`;
* `fastapi_app.py` — `validate_api_key`, the app-wide auth dependency
  and the route handlers.

External collaborators (the HTTP backend, the generative model, the
`filetype` sniffer, the file system) are modelled as explicit inputs:
each embedded function takes the collaborator's answer as a parameter
and computes exactly what the Python source computes from it.
-/

namespace Moderation

/-- The five boolean risk-flag names that appear in the pydantic result
classes and in the `unsafe_flags` lists of `MODERATION_CONFIG`
(gradio_app.py lines 52-69). -/
inductive Flag
  | contains_pii
  | is_unfriendly
  | is_unprofessional
  | is_disturbing
  | is_low_quality
deriving DecidableEq, Repr

/-- A parsed moderation-result JSON object as consumed by
`check_content_safety` (`result = response.json()`): the rationale, the
five boolean risk flags, and an optional transcription (the Python code
tests `"transcription" in result`, so presence of that key is modelled
with `Option`). -/
structure ResultDict where
  rationale : String
  contains_pii : Bool
  is_unfriendly : Bool
  is_unprofessional : Bool
  is_disturbing : Bool
  is_low_quality : Bool
  transcription : Option String
deriving DecidableEq, Repr

/-- Dictionary access `result[flag]` for the five risk-flag keys. -/
def ResultDict.getFlag (r : ResultDict) : Flag → Bool
  | .contains_pii => r.contains_pii
  | .is_unfriendly => r.is_unfriendly
  | .is_unprofessional => r.is_unprofessional
  | .is_disturbing => r.is_disturbing
  | .is_low_quality => r.is_low_quality

/-- One entry of `MODERATION_CONFIG`: the backend endpoint path and the
category's designated unsafe flags. -/
structure ModConfig where
  endpoint : String
  unsafe_flags : List Flag
deriving DecidableEq, Repr

/-- `MODERATION_CONFIG` from gradio_app.py lines 52-69, as the lookup
`MODERATION_CONFIG[content_type]` used by the app: defined keys map to
their entry, any other key has no entry (a Python `KeyError`). Endpoint
values keep the path part of the URL (the `API_BASE_URL` prefix is
deployment configuration). -/
def MODERATION_CONFIG : String → Option ModConfig
  | "text" => some ⟨"/api/v1/moderate_text", [.is_unfriendly, .is_unprofessional, .contains_pii]⟩
  | "image" => some ⟨"/api/v1/moderate_image_file", [.contains_pii, .is_disturbing, .is_low_quality]⟩
  | "video" => some ⟨"/api/v1/moderate_video_file", [.contains_pii, .is_disturbing, .is_low_quality]⟩
  | "audio" => some ⟨"/api/v1/moderate_audio_file", [.is_unfriendly, .is_unprofessional, .contains_pii]⟩
  | _ => none

/-- The exceptions the gradio-app code paths can raise: Python
`ValueError`, `RuntimeError`, and the `KeyError` from an absent
`MODERATION_CONFIG` key. -/
inductive ModError
  | valueError (msg : String)
  | runtimeError (msg : String)
  | keyError (key : String)
deriving DecidableEq, Repr

/-- `detect_file_type` from utils.py: `filetype.guess` either yields a
MIME string or nothing (covering both `not kind` and `not kind.mime`),
in which case a `ValueError` naming the context is raised. The sniffing
itself is the external `filetype` library, so its answer is the `guess`
parameter. -/
def detect_file_type (guess : Option String) (context : String) : Except ModError String :=
  match guess with
  | none => .error (.valueError ("Unsupported file type: " ++ context))
  | some mime => .ok mime

/-- `MAX_FILE_SIZE_MB` from gradio_app.py line 44. -/
def MAX_FILE_SIZE_MB : Nat := 5

/-- `MAX_FILE_SIZE_BYTES` from gradio_app.py line 45. -/
def MAX_FILE_SIZE_BYTES : Nat := MAX_FILE_SIZE_MB * 1024 * 1024

/-- Python `mime_type.split("/")[0]` on the character list: the prefix
of the string before the first `/` (the whole string when there is no
`/`). -/
def mimeHeadAux : List Char → List Char
  | [] => []
  | c :: cs => if c = '/' then [] else c :: mimeHeadAux cs

/-- `mime_type.split("/")[0]` from gradio_app.py line 128. -/
def mime_head (s : String) : String := String.mk (mimeHeadAux s.data)

/-- The environment of one `_call_media_moderation` call: what the
external collaborators answer for this media path. `sniff` is the
`filetype.guess` result, `fileSize` is `os.path.getsize`, and `resp` is
the backend HTTP response (`none` models a non-ok response, `some r`
an ok response whose JSON body parses to `r`). -/
structure MediaEnv where
  sniff : Option String
  fileSize : Nat
  resp : Option ResultDict
deriving DecidableEq, Repr

/-- `_call_text_moderation` from gradio_app.py lines 72-106: posts the
text to the text endpoint; a non-ok response raises `RuntimeError`,
otherwise the parsed result is returned with `feedback = result["rationale"]`,
content type `"text"` and MIME `"text/plain"`. -/
def call_text_moderation (text : String) (resp : Option ResultDict) :
    Except ModError (ResultDict × String × String × String) :=
  match resp with
  | none => .error (.runtimeError "Moderation service unavailable. Please try again later.")
  | some result => .ok (result, result.rationale, "text", "text/plain")

/-- `_call_media_moderation` from gradio_app.py lines 109-151: sniff the
MIME type (`ValueError` when sniffing fails), reject oversized files
(`ValueError`; the Python message interpolates the size in MB), extract
the content type as the MIME prefix, look it up in `MODERATION_CONFIG`
(`KeyError` when absent), post to the backend (`RuntimeError` on a
non-ok response), set `feedback` to the rationale, and for audio with a
transcription key present prefix the feedback with the transcription. -/
def call_media_moderation (media : String) (env : MediaEnv) :
    Except ModError (ResultDict × String × String × String) := do
  let mime_type ← detect_file_type env.sniff media
  if env.fileSize > MAX_FILE_SIZE_BYTES then
    throw (.valueError ("File too large: maximum size is " ++ toString MAX_FILE_SIZE_MB ++ "MB."))
  else
    let content_type := mime_head mime_type
    match MODERATION_CONFIG content_type with
    | none => throw (.keyError content_type)
    | some _config =>
      match env.resp with
      | none => throw (.runtimeError "Moderation service unavailable. Please try again later.")
      | some result =>
        let feedback := result.rationale
        let feedback :=
          if content_type = "audio" then
            match result.transcription with
            | some t => "Transcription: \"" ++ t ++ "\"\n\n" ++ feedback
            | none => feedback
          else feedback
        pure (result, feedback, content_type, mime_type)

/-- The flag loop of `check_content_safety` (gradio_app.py lines
188-195): walk the category's `unsafe_flags`; at the first flag that is
set return `(False, "Content flagged: " ++ feedback, mime_type)`, and if
none is set return `(True, feedback, mime_type)`. -/
def gate_loop (result : ResultDict) (feedback mime_type : String) :
    List Flag → Bool × String × String
  | [] => (true, feedback, mime_type)
  | flag :: rest =>
    if result.getFlag flag then (false, "Content flagged: " ++ feedback, mime_type)
    else gate_loop result feedback mime_type rest

/-- `check_content_safety` from gradio_app.py lines 154-195: route to
text moderation when `text` is not `None`, else to media moderation when
`media` is not `None`, else raise
`ValueError("Must provide exactly one of text or media")`; then look up
the content type's config and run the flag loop. The backend answers are
the `textResp`/`mediaEnv` parameters. -/
def check_content_safety (text : Option String) (media : Option String)
    (textResp : Option ResultDict) (mediaEnv : MediaEnv) :
    Except ModError (Bool × String × String) := do
  let out ←
    match text with
    | some t => call_text_moderation t textResp
    | none =>
      match media with
      | some m => call_media_moderation m mediaEnv
      | none => throw (ModError.valueError "Must provide exactly one of text or media")
  let (result, feedback, content_type, mime_type) := out
  match MODERATION_CONFIG content_type with
  | none => throw (ModError.keyError content_type)
  | some config => pure (gate_loop result feedback mime_type config.unsafe_flags)

/-! ### The pydantic result schema family (types/moderation_result.py) -/

/-- The base `ModerationResult` class: only a required `rationale`. -/
structure ModerationResult where
  rationale : String
deriving DecidableEq, Repr

/-- `TextModerationResult`: rationale plus three required flags. -/
structure TextModerationResult where
  rationale : String
  contains_pii : Bool
  is_unfriendly : Bool
  is_unprofessional : Bool
deriving DecidableEq, Repr

/-- `ImageModerationResult`: rationale plus three required flags. -/
structure ImageModerationResult where
  rationale : String
  contains_pii : Bool
  is_disturbing : Bool
  is_low_quality : Bool
deriving DecidableEq, Repr

/-- `VideoModerationResult`: rationale plus three required flags. -/
structure VideoModerationResult where
  rationale : String
  contains_pii : Bool
  is_disturbing : Bool
  is_low_quality : Bool
deriving DecidableEq, Repr

/-- `AudioModerationResult`: rationale, required transcription, and
three required flags. -/
structure AudioModerationResult where
  rationale : String
  transcription : String
  contains_pii : Bool
  is_unfriendly : Bool
  is_unprofessional : Bool
deriving DecidableEq, Repr

/-- The fields a caller supplies when constructing or validating one of
the pydantic result models: each known field name is either present
(with a correctly typed value) or absent. -/
structure FieldBag where
  rationale : Option String
  contains_pii : Option Bool
  is_unfriendly : Option Bool
  is_unprofessional : Option Bool
  is_disturbing : Option Bool
  is_low_quality : Option Bool
  transcription : Option String
deriving DecidableEq, Repr

/-- Pydantic construction/validation of the base `ModerationResult`:
`rationale` is required (no default), every other supplied field is
ignored; a missing required field is a `ValidationError` (`none`). -/
def validateModerationResult (b : FieldBag) : Option ModerationResult :=
  match b.rationale with
  | some r => some ⟨r⟩
  | none => none

/-- Pydantic construction/validation of `TextModerationResult`: all four
declared fields are required (none has a default). -/
def validateTextModerationResult (b : FieldBag) : Option TextModerationResult :=
  match b.rationale, b.contains_pii, b.is_unfriendly, b.is_unprofessional with
  | some r, some p, some f, some u => some ⟨r, p, f, u⟩
  | _, _, _, _ => none

/-- Pydantic construction/validation of `ImageModerationResult`: all
four declared fields are required. -/
def validateImageModerationResult (b : FieldBag) : Option ImageModerationResult :=
  match b.rationale, b.contains_pii, b.is_disturbing, b.is_low_quality with
  | some r, some p, some d, some q => some ⟨r, p, d, q⟩
  | _, _, _, _ => none

/-- Pydantic construction/validation of `VideoModerationResult`: all
four declared fields are required. -/
def validateVideoModerationResult (b : FieldBag) : Option VideoModerationResult :=
  match b.rationale, b.contains_pii, b.is_disturbing, b.is_low_quality with
  | some r, some p, some d, some q => some ⟨r, p, d, q⟩
  | _, _, _, _ => none

/-- Pydantic construction/validation of `AudioModerationResult`: all
five declared fields are required. -/
def validateAudioModerationResult (b : FieldBag) : Option AudioModerationResult :=
  match b.rationale, b.transcription, b.contains_pii, b.is_unfriendly, b.is_unprofessional with
  | some r, some t, some p, some f, some u => some ⟨r, t, p, f, u⟩
  | _, _, _, _, _ => none

/-! ### The text agent (agents/text_agent.py) and its endpoint
(fastapi_app.py line 43-45) -/

/-- The structured-output coercion the text agent performs: at
text_agent.py lines 33-36 the agent is created with
`output_type=ModerationResult` — the BASE class — so the model's raw
response is validated against the base schema only. -/
def text_moderation_agent_output (modelResponse : FieldBag) : Option ModerationResult :=
  validateModerationResult modelResponse

/-- `moderate_text` from text_agent.py lines 39-45: run the agent on the
text and return `result.output`. The generative model's raw structured
response is the `modelResponse` parameter. -/
def moderate_text (modelResponse : FieldBag) : Option ModerationResult :=
  text_moderation_agent_output modelResponse

/-- Serialization of a base `ModerationResult` value back to its field
dictionary: only the `rationale` key exists on the base class. -/
def ModerationResult.toFieldBag (m : ModerationResult) : FieldBag :=
  ⟨some m.rationale, none, none, none, none, none, none⟩

/-- The `/api/v1/moderate_text` endpoint (fastapi_app.py lines 43-45):
the handler returns `moderate_text`'s value, and FastAPI validates it
against the declared `response_model=TextModerationResult`. -/
def moderate_text_endpoint (modelResponse : FieldBag) : Option TextModerationResult :=
  (moderate_text modelResponse).bind fun out => validateTextModerationResult out.toFieldBag

/-! ### The FastAPI app and its auth dependency (fastapi_app.py) -/

/-- A FastAPI `HTTPException` as raised by `validate_api_key`. -/
structure HTTPExceptionVal where
  status_code : Nat
  detail : String
deriving DecidableEq, Repr

/-- `validate_api_key` from fastapi_app.py lines 24-27: compare the
bearer credentials with the configured static `USER_API_KEY` (the
`secret` parameter, read from the environment at startup); a mismatch
raises `HTTPException(status_code=401, detail="Invalid user API key")`. -/
def validate_api_key (secret credentials : String) : Except HTTPExceptionVal String :=
  if credentials ≠ secret then .error ⟨401, "Invalid user API key"⟩
  else .ok credentials

/-- The five routes registered on the FastAPI app. -/
inductive Route
  | moderate_text_route
  | moderate_image_file_route
  | moderate_video_file_route
  | moderate_audio_file_route
  | health
deriving DecidableEq, Repr

/-- A route handler's response body: a moderation verdict from one of
the four moderation handlers, or the health payload (a JSON object
modelled as its key-value pairs). -/
inductive Payload
  | verdict (r : ResultDict)
  | healthOk (d : List (String × String))
deriving DecidableEq, Repr

/-- `health_check` from fastapi_app.py lines 69-71: the static payload
with key `status` mapped to `ok`. -/
def health_check : List (String × String) := [("status", "ok")]

/-- The app's route handlers: the four moderation handlers produce a
verdict (their moderation logic is the external `moderate` collaborator
here), and the health route returns the static `health_check` payload. -/
def app_handler (moderate : Route → ResultDict) : Route → Payload
  | .health => .healthOk health_check
  | r => .verdict (moderate r)

/-- Request dispatch of the app created at fastapi_app.py line 36:
`FastAPI(dependencies=[Depends(validate_api_key)])` runs
`validate_api_key` before EVERY path operation of the app (the source
comment: applying the API key validation to all endpoints); only when it
succeeds is the route's handler invoked. -/
def handle_request (secret credentials : String) (route : Route)
    (handler : Route → Payload) : Except HTTPExceptionVal Payload :=
  match validate_api_key secret credentials with
  | .error e => .error e
  | .ok _ => .ok (handler route)

/-! ### The repeated-trial harness (evals/utils.py) -/

/-- A metadata dictionary value: the harness stores the numeric
`run_number` and the string `base_case` alongside whatever values the
base case's metadata already had. -/
inductive MetaVal
  | natV (n : Nat)
  | strV (s : String)
deriving DecidableEq, Repr

/-- A `pydantic_evals.Case`, generic over the input, expected-output and
evaluator types exactly as the Python `TypeVar`s are: a name, inputs, an
optional expected output, optional metadata (a dictionary, modelled as
an association list in insertion order) and evaluators. -/
structure Case (I O E : Type) where
  name : String
  inputs : I
  expected_output : Option O
  metadata : Option (List (String × MetaVal))
  evaluators : List E
deriving DecidableEq, Repr

/-- Python `k in d` on an insertion-ordered association list. -/
def hasKey : List (String × MetaVal) → String → Bool
  | [], _ => false
  | p :: ps, k => decide (p.1 = k) || hasKey ps k

/-- Python dictionary access `d.get(k)` on an insertion-ordered
association list (dictionaries hold each key at most once, so the first
match is the binding). -/
def dictGet : List (String × MetaVal) → String → Option MetaVal
  | [], _ => none
  | p :: ps, k => if p.1 = k then some p.2 else dictGet ps k

/-- Python dictionary update `d[k] = v` on an insertion-ordered
association list: when the key exists its entry is overwritten in place,
otherwise the pair is appended. `{**old, "k": v, ...}` is a sequence of
such updates on a copy of `old`. -/
def dictSet (d : List (String × MetaVal)) (k : String) (v : MetaVal) :
    List (String × MetaVal) :=
  if hasKey d k then d.map (fun p => if p.1 = k then (k, v) else p)
  else d ++ [(k, v)]

/-- `create_repeated_cases` from evals/utils.py lines 53-94 with an
explicit repeat count (the `None` default only substitutes the
`EVAL_NUM_REPEATS` configuration value): if `num_repeats <= 1` the base
cases are returned unchanged; otherwise for every base case and every
`run_number` in `range(1, num_repeats + 1)` a copy is produced named
`f"{base_case.name}_run_{run_number}"`, keeping inputs, expected output
and evaluators, with metadata
`{**(base_case.metadata or {}), "run_number": run_number, "base_case": base_case.name}`. -/
def create_repeated_cases {I O E : Type} (base_cases : List (Case I O E))
    (num_repeats : Int) : List (Case I O E) :=
  if num_repeats ≤ 1 then base_cases
  else
    base_cases.flatMap fun base_case =>
      (List.range' 1 num_repeats.toNat).map fun run_number =>
        { name := base_case.name ++ "_run_" ++ toString run_number
          inputs := base_case.inputs
          expected_output := base_case.expected_output
          metadata := some (dictSet (dictSet (base_case.metadata.getD [])
            "run_number" (MetaVal.natV run_number)) "base_case" (MetaVal.strV base_case.name))
          evaluators := base_case.evaluators }

/-! ### Helper lemmas -/

/-- The value of the flag loop in closed form: the decision is the
negated OR of the flags, and the feedback gets the flagged marker
exactly when some flag is set. -/
theorem gate_loop_eq (r : ResultDict) (fb mt : String) (flags : List Flag) :
    gate_loop r fb mt flags =
      (!(flags.any r.getFlag),
       if flags.any r.getFlag then "Content flagged: " ++ fb else fb, mt) := by
  induction flags with
  | nil => simp [gate_loop]
  | cons f fs ih =>
    by_cases h : r.getFlag f
    · simp [gate_loop, h]
    · simp [gate_loop, h, ih]

/-- The decision component of the flag loop. -/
theorem gate_loop_fst (r : ResultDict) (fb mt : String) (flags : List Flag) :
    (gate_loop r fb mt flags).1 = !(flags.any r.getFlag) := by
  rw [gate_loop_eq]

/-- Two results that agree on a list of flags give the same OR over it. -/
theorem any_getFlag_congr (r r' : ResultDict) :
    ∀ flags : List Flag, (∀ f ∈ flags, r.getFlag f = r'.getFlag f) →
      flags.any r.getFlag = flags.any r'.getFlag := by
  intro flags
  induction flags with
  | nil => intro _; rfl
  | cons f fs ih =>
    intro h
    have hf : r.getFlag f = r'.getFlag f := h f (by simp)
    have hfs := ih fun g hg => h g (by simp [hg])
    simp [List.any_cons, hf, hfs]

/-- Updating key `k` makes `k` map to the new value. -/
theorem dictGet_dictSet_self (d : List (String × MetaVal)) (k : String) (v : MetaVal) :
    dictGet (dictSet d k v) k = some v := by
  unfold dictSet
  by_cases h : hasKey d k
  · rw [if_pos h]
    induction d with
    | nil => simp [hasKey] at h
    | cons p ps ih =>
      by_cases hp : p.1 = k
      · simp [dictGet, hp]
      · have h' : hasKey ps k := by simpa [hasKey, hp] using h
        simpa [dictGet, hp] using ih h'
  · rw [if_neg h]
    induction d with
    | nil => simp [dictGet]
    | cons p ps ih =>
      have hp : ¬p.1 = k := by
        intro e; exact h (by simp [hasKey, e])
      have h' : ¬hasKey ps k = true := by
        intro e; exact h (by simp [hasKey, e])
      simpa [dictGet, hp] using ih h'

/-- Overwriting the entries bound to key `k` leaves every other key's
binding unchanged. -/
theorem dictGet_map_set_ne (k k' : String) (v : MetaVal) (hne : k' ≠ k) :
    ∀ d : List (String × MetaVal),
      dictGet (d.map fun p => if p.1 = k then (k, v) else p) k' = dictGet d k' := by
  intro d
  induction d with
  | nil => simp [dictGet]
  | cons p ps ih =>
    by_cases hp : p.1 = k
    · have hk' : ¬(k = k') := fun e => hne e.symm
      have hp' : ¬(p.1 = k') := by rw [hp]; exact fun e => hne e.symm
      simp [dictGet, hp, hk', hp', ih]
    · by_cases hq : p.1 = k'
      · simp [List.map_cons, dictGet, hp, hq, hne]
      · simp [List.map_cons, dictGet, hp, hq, ih]

/-- Appending a binding for key `k` leaves every other key's binding
unchanged. -/
theorem dictGet_append_ne (k k' : String) (v : MetaVal) (hne : k' ≠ k) :
    ∀ d : List (String × MetaVal),
      dictGet (d ++ [(k, v)]) k' = dictGet d k' := by
  intro d
  induction d with
  | nil => simp [dictGet, Ne.symm hne]
  | cons p ps ih =>
    by_cases hq : p.1 = k'
    · simp [dictGet, hq]
    · simp [dictGet, hq, ih]

/-- Updating key `k` leaves every other key's binding unchanged. -/
theorem dictGet_dictSet_ne (d : List (String × MetaVal)) (k k' : String) (v : MetaVal)
    (hne : k' ≠ k) : dictGet (dictSet d k v) k' = dictGet d k' := by
  unfold dictSet
  by_cases h : hasKey d k
  · rw [if_pos h]; exact dictGet_map_set_ne k k' v hne d
  · rw [if_neg h]; exact dictGet_append_ne k k' v hne d

/-- Reduction of a successful bind in the `Except` monad. -/
@[simp]
theorem except_ok_bind {ε α β : Type} (a : α) (f : α → Except ε β) :
    (Except.ok a >>= f : Except ε β) = f a := rfl

/-- Reduction of a failed bind in the `Except` monad. -/
@[simp]
theorem except_error_bind {ε α β : Type} (e : ε) (f : α → Except ε β) :
    (Except.error e >>= f : Except ε β) = Except.error e := rfl

/-- `throw` in the `Except` monad is the error constructor. -/
@[simp]
theorem except_throw_eq {ε α : Type} (e : ε) :
    (throw e : Except ε α) = Except.error e := rfl

/-- The gate decision is true exactly when every flag in the list is
unset. -/
theorem gate_loop_safe_iff (r : ResultDict) (fb mt : String) (flags : List Flag) :
    (gate_loop r fb mt flags).1 = true ↔ ∀ f ∈ flags, r.getFlag f = false := by
  rw [gate_loop_fst]
  simp [List.any_eq_false]

/-- The gate decision is false exactly when some flag in the list is
set. -/
theorem gate_loop_unsafe_iff (r : ResultDict) (fb mt : String) (flags : List Flag) :
    (gate_loop r fb mt flags).1 = false ↔ ∃ f ∈ flags, r.getFlag f = true := by
  rw [gate_loop_fst]
  simp [List.any_eq_true]

/-! ### Claim theorems -/

/-- C1: for every category in text, image, video, audio, the safety
gate of `check_content_safety` decides `is_safe` as exactly the negated
OR over the category's designated unsafe flags from
`MODERATION_CONFIG`: when all designated flags of a moderation result
are false the decision is true, when at least one is true the decision
is false, with no weighting or threshold; and the designated sets are
is_unfriendly, is_unprofessional, contains_pii for text and audio, and
contains_pii, is_disturbing, is_low_quality for image and video. -/
theorem c1_gate_is_negated_or (c : String)
    (hc : c = "text" ∨ c = "image" ∨ c = "video" ∨ c = "audio")
    (r : ResultDict) (fb mt : String) :
    ∃ cfg : ModConfig, MODERATION_CONFIG c = some cfg ∧
      cfg.unsafe_flags = (if c = "text" ∨ c = "audio"
        then [Flag.is_unfriendly, Flag.is_unprofessional, Flag.contains_pii]
        else [Flag.contains_pii, Flag.is_disturbing, Flag.is_low_quality]) ∧
      (gate_loop r fb mt cfg.unsafe_flags).1 = !(cfg.unsafe_flags.any r.getFlag) ∧
      ((∀ f ∈ cfg.unsafe_flags, r.getFlag f = false) →
        (gate_loop r fb mt cfg.unsafe_flags).1 = true) ∧
      ((∃ f ∈ cfg.unsafe_flags, r.getFlag f = true) →
        (gate_loop r fb mt cfg.unsafe_flags).1 = false) := by
  rcases hc with rfl | rfl | rfl | rfl <;>
    exact ⟨_, rfl, by decide, gate_loop_fst r fb mt _,
      fun h => (gate_loop_safe_iff r fb mt _).mpr h,
      fun h => (gate_loop_unsafe_iff r fb mt _).mpr h⟩

/-- Witness for C1: the text category at a concrete all-clear result
and at a concrete result with contains_pii set. -/
theorem c1_gate_is_negated_or_witness :
    ∃ cfg : ModConfig, MODERATION_CONFIG "text" = some cfg ∧
      cfg.unsafe_flags = (if "text" = "text" ∨ "text" = "audio"
        then [Flag.is_unfriendly, Flag.is_unprofessional, Flag.contains_pii]
        else [Flag.contains_pii, Flag.is_disturbing, Flag.is_low_quality]) ∧
      (gate_loop ⟨"ok", false, false, false, false, false, none⟩ "ok" "text/plain"
        cfg.unsafe_flags).1 =
        !(cfg.unsafe_flags.any (ResultDict.getFlag ⟨"ok", false, false, false, false, false, none⟩)) ∧
      ((∀ f ∈ cfg.unsafe_flags,
          ResultDict.getFlag ⟨"ok", false, false, false, false, false, none⟩ f = false) →
        (gate_loop ⟨"ok", false, false, false, false, false, none⟩ "ok" "text/plain"
          cfg.unsafe_flags).1 = true) ∧
      ((∃ f ∈ cfg.unsafe_flags,
          ResultDict.getFlag ⟨"ok", false, false, false, false, false, none⟩ f = true) →
        (gate_loop ⟨"ok", false, false, false, false, false, none⟩ "ok" "text/plain"
          cfg.unsafe_flags).1 = false) :=
  c1_gate_is_negated_or "text" (Or.inl rfl)
    ⟨"ok", false, false, false, false, false, none⟩ "ok" "text/plain"

/-- C5: for every category, two moderation results that agree on that
category's designated unsafe flags receive the same `is_safe` decision
from the gate, whatever the values of the remaining flags, the
rationales and the MIME strings are — flags outside the designated set
cannot flip the decision. -/
theorem c5_outside_flags_do_not_affect_gate (c : String)
    (hc : c = "text" ∨ c = "image" ∨ c = "video" ∨ c = "audio")
    (r r' : ResultDict) (fb fb' mt mt' : String) :
    ∃ cfg : ModConfig, MODERATION_CONFIG c = some cfg ∧
      ((∀ f ∈ cfg.unsafe_flags, r.getFlag f = r'.getFlag f) →
        (gate_loop r fb mt cfg.unsafe_flags).1 =
          (gate_loop r' fb' mt' cfg.unsafe_flags).1) := by
  rcases hc with rfl | rfl | rfl | rfl <;>
    exact ⟨_, rfl, fun h => by
      rw [gate_loop_fst, gate_loop_fst, any_getFlag_congr r r' _ h]⟩

/-- Witness for C5: a text result with all flags clear against the same
result with only is_low_quality set — the decisions agree. -/
theorem c5_outside_flags_do_not_affect_gate_witness :
    ∃ cfg : ModConfig, MODERATION_CONFIG "text" = some cfg ∧
      ((∀ f ∈ cfg.unsafe_flags,
          ResultDict.getFlag ⟨"ok", false, false, false, false, false, none⟩ f =
            ResultDict.getFlag ⟨"ok", false, false, false, false, true, none⟩ f) →
        (gate_loop ⟨"ok", false, false, false, false, false, none⟩ "ok" "text/plain"
          cfg.unsafe_flags).1 =
          (gate_loop ⟨"ok", false, false, false, false, true, none⟩ "ok" "text/plain"
            cfg.unsafe_flags).1) :=
  c5_outside_flags_do_not_affect_gate "text" (Or.inl rfl)
    ⟨"ok", false, false, false, false, false, none⟩
    ⟨"ok", false, false, false, false, true, none⟩ "ok" "ok" "text/plain" "text/plain"

/-- C9: for an audio moderation result carrying a transcription, the
feedback produced by the media moderation path is the rationale prefixed
with the transcription; and for every category, whenever some designated
flag is set, the gate returns the feedback prefixed with the marker
"Content flagged: ". -/
theorem c9_audio_feedback_and_flagged_marker :
    (∀ (media : String) (env : MediaEnv) (mime : String) (r : ResultDict) (t : String),
      env.sniff = some mime → mime_head mime = "audio" →
      env.fileSize ≤ MAX_FILE_SIZE_BYTES → env.resp = some r →
      r.transcription = some t →
      call_media_moderation media env =
        .ok (r, "Transcription: \"" ++ t ++ "\"\n\n" ++ r.rationale, "audio", mime)) ∧
    (∀ (r : ResultDict) (flags : List Flag) (fb mt : String),
      flags.any r.getFlag = true →
      gate_loop r fb mt flags = (false, "Content flagged: " ++ fb, mt)) := by
  constructor
  · intro media env mime r t h1 h2 h3 h4 h5
    have hsize : ¬env.fileSize > MAX_FILE_SIZE_BYTES := Nat.not_lt.mpr h3
    simp [call_media_moderation, detect_file_type, h1, h2, h4, h5, hsize, MODERATION_CONFIG]
    rfl
  · intro r flags fb mt h
    rw [gate_loop_eq, h]
    simp

/-- Witness for C9: a concrete audio file environment whose transcript
mentions a phone number and whose contains_pii flag is set. -/
theorem c9_audio_feedback_and_flagged_marker_witness :
    call_media_moderation "call.mp3"
        ⟨some "audio/mpeg", 100, some ⟨"PII found", true, false, false, false, false, some "call 555-0100"⟩⟩ =
      .ok (⟨"PII found", true, false, false, false, false, some "call 555-0100"⟩,
        "Transcription: \"call 555-0100\"\n\n" ++ "PII found", "audio", "audio/mpeg") ∧
    gate_loop ⟨"PII found", true, false, false, false, false, some "call 555-0100"⟩
        ("Transcription: \"call 555-0100\"\n\nPII found") "audio/mpeg"
        [Flag.is_unfriendly, Flag.is_unprofessional, Flag.contains_pii] =
      (false, "Content flagged: " ++ "Transcription: \"call 555-0100\"\n\nPII found", "audio/mpeg") :=
  ⟨c9_audio_feedback_and_flagged_marker.1 "call.mp3"
      ⟨some "audio/mpeg", 100, some ⟨"PII found", true, false, false, false, false, some "call 555-0100"⟩⟩
      "audio/mpeg" ⟨"PII found", true, false, false, false, false, some "call 555-0100"⟩
      "call 555-0100" rfl (by decide) (by decide) rfl rfl,
    c9_audio_feedback_and_flagged_marker.2
      ⟨"PII found", true, false, false, false, false, some "call 555-0100"⟩
      [Flag.is_unfriendly, Flag.is_unprofessional, Flag.contains_pii]
      "Transcription: \"call 555-0100\"\n\nPII found" "audio/mpeg" (by decide)⟩

/-- C10: calling check_content_safety with neither text nor media raises
ValueError "Must provide exactly one of text or media" and makes no
moderation call; calling it with both text and media does not reject the
call: it takes the text branch, giving exactly the same outcome as a
text-only call (the media argument and its whole environment are
ignored), and with an ok backend response it returns the gate result of
the text moderation. -/
theorem c10_both_text_and_media_takes_text_branch
    (t m : String) (tr : Option ResultDict) (env env' : MediaEnv) :
    check_content_safety none none tr env =
      .error (.valueError "Must provide exactly one of text or media") ∧
    check_content_safety (some t) (some m) tr env =
      check_content_safety (some t) none tr env' ∧
    (∀ r, tr = some r →
      check_content_safety (some t) (some m) tr env =
        .ok (gate_loop r r.rationale "text/plain"
          [Flag.is_unfriendly, Flag.is_unprofessional, Flag.contains_pii])) := by
  refine ⟨rfl, rfl, ?_⟩
  intro r hr
  subst hr
  rfl

/-- Witness for C10: a concrete call carrying both a text and a media
argument, with an ok backend response. -/
theorem c10_both_text_and_media_takes_text_branch_witness :
    check_content_safety none none
        (some ⟨"ok", false, false, false, false, false, none⟩) ⟨none, 0, none⟩ =
      .error (.valueError "Must provide exactly one of text or media") ∧
    check_content_safety (some "hello") (some "pic.png")
        (some ⟨"ok", false, false, false, false, false, none⟩) ⟨none, 0, none⟩ =
      check_content_safety (some "hello") none
        (some ⟨"ok", false, false, false, false, false, none⟩) ⟨some "image/png", 7, none⟩ ∧
    (∀ r, (some ⟨"ok", false, false, false, false, false, none⟩ : Option ResultDict) = some r →
      check_content_safety (some "hello") (some "pic.png")
          (some ⟨"ok", false, false, false, false, false, none⟩) ⟨none, 0, none⟩ =
        .ok (gate_loop r r.rationale "text/plain"
          [Flag.is_unfriendly, Flag.is_unprofessional, Flag.contains_pii])) :=
  c10_both_text_and_media_takes_text_branch "hello" "pic.png"
    (some ⟨"ok", false, false, false, false, false, none⟩) ⟨none, 0, none⟩
    ⟨some "image/png", 7, none⟩

/-- C3: for every repeat count R > 1, create_repeated_cases returns
exactly R times as many cases as there are base cases, and for every
base case b and run index i in 1..R the output contains the copy named
b.name ++ "_run_" ++ i retaining b's inputs, expected output and
evaluators, whose metadata binds run_number to i and base_case to b's
name; for every R ≤ 1 it returns the input list unchanged — same
identities, same order. -/
theorem c3_create_repeated_cases {I O E : Type}
    (base_cases : List (Case I O E)) (R : Int) :
    (1 < R →
      (create_repeated_cases base_cases R).length = R.toNat * base_cases.length ∧
      (∀ b ∈ base_cases, ∀ i : Nat, 1 ≤ i → i ≤ R.toNat →
        ∃ c ∈ create_repeated_cases base_cases R,
          c.name = b.name ++ "_run_" ++ toString i ∧
          c.inputs = b.inputs ∧
          c.expected_output = b.expected_output ∧
          c.evaluators = b.evaluators ∧
          dictGet (c.metadata.getD []) "run_number" = some (MetaVal.natV i) ∧
          dictGet (c.metadata.getD []) "base_case" = some (MetaVal.strV b.name))) ∧
    (R ≤ 1 → create_repeated_cases base_cases R = base_cases) := by
  constructor
  · intro hR
    have hnot : ¬R ≤ 1 := not_le.mpr hR
    constructor
    · simp only [create_repeated_cases, if_neg hnot]
      induction base_cases with
      | nil => simp
      | cons b bs ih =>
        simp only [List.flatMap_cons, List.length_append, List.length_map,
          List.length_range', List.length_cons, ih, Nat.mul_succ]
        omega
    · intro b hb i h1 hi
      refine ⟨{ name := b.name ++ "_run_" ++ toString i, inputs := b.inputs,
                expected_output := b.expected_output,
                metadata := some (dictSet (dictSet (b.metadata.getD [])
                  "run_number" (MetaVal.natV i)) "base_case" (MetaVal.strV b.name)),
                evaluators := b.evaluators }, ?_, rfl, rfl, rfl, rfl, ?_, ?_⟩
      · simp only [create_repeated_cases, if_neg hnot]
        refine List.mem_flatMap.mpr ⟨b, hb, ?_⟩
        refine List.mem_map.mpr ⟨i, ?_, rfl⟩
        rw [List.mem_range'_1]
        omega
      · show dictGet (dictSet (dictSet (b.metadata.getD [])
            "run_number" (MetaVal.natV i)) "base_case" (MetaVal.strV b.name))
            "run_number" = some (MetaVal.natV i)
        rw [dictGet_dictSet_ne _ _ _ _ (by decide), dictGet_dictSet_self]
      · show dictGet (dictSet (dictSet (b.metadata.getD [])
            "run_number" (MetaVal.natV i)) "base_case" (MetaVal.strV b.name))
            "base_case" = some (MetaVal.strV b.name)
        rw [dictGet_dictSet_self]
  · intro hR
    simp only [create_repeated_cases, if_pos hR]

/-- Witness for C3: one concrete base case repeated with R = 2 (two
copies) and with R = 1 (list returned unchanged). -/
theorem c3_create_repeated_cases_witness :
    (create_repeated_cases [(⟨"base", 0, none, none, []⟩ : Case Nat Nat Nat)] (2 : Int)).length =
      (2 : Int).toNat * [(⟨"base", 0, none, none, []⟩ : Case Nat Nat Nat)].length ∧
    create_repeated_cases [(⟨"base", 0, none, none, []⟩ : Case Nat Nat Nat)] (1 : Int) =
      [(⟨"base", 0, none, none, []⟩ : Case Nat Nat Nat)] :=
  ⟨((c3_create_repeated_cases [(⟨"base", 0, none, none, []⟩ : Case Nat Nat Nat)] 2).1
      (by decide)).1,
   (c3_create_repeated_cases [(⟨"base", 0, none, none, []⟩ : Case Nat Nat Nat)] 1).2
      (by decide)⟩

/-- C2 (code bug evidence): the text agent is configured with the BASE
`ModerationResult` as its structured-output type, which carries only the
rationale, so the value `moderate_text` returns never validates against
`TextModerationResult` — whatever the generative model answered, the
text endpoint's declared `response_model=TextModerationResult`
validation fails, contradicting the repository's own tests, which assert
`moderate_text` returns a `TextModerationResult` carrying contains_pii,
is_unfriendly and is_unprofessional. -/
theorem c2_moderate_text_output_lacks_text_fields (modelResponse : FieldBag) :
    moderate_text_endpoint modelResponse = none ∧
    (∀ out : ModerationResult, moderate_text modelResponse = some out →
      validateTextModerationResult out.toFieldBag = none) := by
  constructor
  · cases h : modelResponse.rationale <;>
      simp [moderate_text_endpoint, moderate_text, text_moderation_agent_output,
        validateModerationResult, validateTextModerationResult, ModerationResult.toFieldBag, h]
  · intro out _
    rfl

/-- Witness for C2's evidence theorem: a concrete model response with a
rationale; the endpoint still validates to nothing. -/
theorem c2_moderate_text_output_lacks_text_fields_witness :
    moderate_text_endpoint ⟨some "Hello", none, none, none, none, none, none⟩ = none ∧
    validateTextModerationResult (ModerationResult.toFieldBag ⟨"Hello"⟩) = none :=
  ⟨(c2_moderate_text_output_lacks_text_fields
      ⟨some "Hello", none, none, none, none, none, none⟩).1,
   (c2_moderate_text_output_lacks_text_fields
      ⟨some "Hello", none, none, none, none, none, none⟩).2 ⟨"Hello"⟩ rfl⟩

/-- C4 counterexample: constructing a per-category result with only a
rationale is a hard validation error — the flag fields do not default to
false. Here `TextModerationResult` built from just
rationale = "Test" fails, and so does `AudioModerationResult` (its
transcription does not default to the empty string either). -/
theorem c4_only_rationale_construction_fails :
    validateTextModerationResult ⟨some "Test", none, none, none, none, none, none⟩ = none ∧
    validateAudioModerationResult ⟨some "Test", none, none, none, none, none, none⟩ = none := by
  exact ⟨rfl, rfl⟩

/-- C4 (amended): only the base ModerationResult can be constructed from
a rationale alone — it has no flag or transcription fields at all; each
per-category result class requires every one of its declared fields at
construction (flags, and for audio the transcription), and a missing
field is a validation error, not a default. -/
theorem c4_required_fields_characterization (b : FieldBag) :
    ((validateModerationResult b).isSome = b.rationale.isSome) ∧
    ((validateTextModerationResult b).isSome =
      (b.rationale.isSome && b.contains_pii.isSome && b.is_unfriendly.isSome &&
        b.is_unprofessional.isSome)) ∧
    ((validateImageModerationResult b).isSome =
      (b.rationale.isSome && b.contains_pii.isSome && b.is_disturbing.isSome &&
        b.is_low_quality.isSome)) ∧
    ((validateVideoModerationResult b).isSome =
      (b.rationale.isSome && b.contains_pii.isSome && b.is_disturbing.isSome &&
        b.is_low_quality.isSome)) ∧
    ((validateAudioModerationResult b).isSome =
      (b.rationale.isSome && b.transcription.isSome && b.contains_pii.isSome &&
        b.is_unfriendly.isSome && b.is_unprofessional.isSome)) := by
  obtain ⟨r, p, f, u, d, q, t⟩ := b
  refine ⟨?_, ?_, ?_, ?_, ?_⟩ <;>
    cases r <;> cases p <;> cases f <;> cases u <;> cases d <;> cases q <;> cases t <;> rfl

/-- C6: when the media type cannot be sniffed, the media moderation call
fails with the ValueError naming the offending file, and when the
sniffed MIME's category has no entry in MODERATION_CONFIG, it fails with
the KeyError naming that category — in neither situation does it return
a moderation outcome from some default category. -/
theorem c6_unknown_media_type_fails (media : String) (env : MediaEnv) :
    (env.sniff = none →
      call_media_moderation media env =
        .error (.valueError ("Unsupported file type: " ++ media))) ∧
    (∀ mime, env.sniff = some mime → env.fileSize ≤ MAX_FILE_SIZE_BYTES →
      MODERATION_CONFIG (mime_head mime) = none →
      call_media_moderation media env = .error (.keyError (mime_head mime))) := by
  constructor
  · intro h
    simp [call_media_moderation, detect_file_type, h]
  · intro mime h1 h3 hcfg
    have hsize : ¬env.fileSize > MAX_FILE_SIZE_BYTES := Nat.not_lt.mpr h3
    simp [call_media_moderation, detect_file_type, h1, hsize, hcfg]

/-- Witness for C6: an unsniffable file, and an application/pdf file
whose category has no route. -/
theorem c6_unknown_media_type_fails_witness :
    call_media_moderation "mystery.bin" ⟨none, 10, none⟩ =
      .error (.valueError ("Unsupported file type: " ++ "mystery.bin")) ∧
    call_media_moderation "doc.pdf" ⟨some "application/pdf", 10, none⟩ =
      .error (.keyError (mime_head "application/pdf")) :=
  ⟨(c6_unknown_media_type_fails "mystery.bin" ⟨none, 10, none⟩).1 rfl,
   (c6_unknown_media_type_fails "doc.pdf" ⟨some "application/pdf", 10, none⟩).2
      "application/pdf" rfl (by decide) (by decide)⟩

/-- C7: for every request whose bearer token differs from the configured
static secret, the app-wide auth dependency rejects each of the four
moderation routes with HTTP 401 "Invalid user API key" before any
moderation handler runs: the response is that error and never a
verdict. -/
theorem c7_bad_token_rejected_before_moderation
    (secret credentials : String) (route : Route) (moderate : Route → ResultDict)
    (hne : credentials ≠ secret)
    (hroute : route = Route.moderate_text_route ∨ route = Route.moderate_image_file_route ∨
      route = Route.moderate_video_file_route ∨ route = Route.moderate_audio_file_route) :
    handle_request secret credentials route (app_handler moderate) =
      .error ⟨401, "Invalid user API key"⟩ ∧
    ∀ p, handle_request secret credentials route (app_handler moderate) ≠ .ok p := by
  have h : handle_request secret credentials route (app_handler moderate) =
      .error ⟨401, "Invalid user API key"⟩ := by
    rcases hroute with rfl | rfl | rfl | rfl <;>
      simp [handle_request, validate_api_key, hne]
  exact ⟨h, fun p hp => by rw [h] at hp; cases hp⟩

/-- Witness for C7: a concrete mismatching token on the text route. -/
theorem c7_bad_token_rejected_before_moderation_witness :
    handle_request "user-key" "wrong-key" Route.moderate_text_route
        (app_handler fun _ => ⟨"ok", false, false, false, false, false, none⟩) =
      .error ⟨401, "Invalid user API key"⟩ ∧
    ∀ p, handle_request "user-key" "wrong-key" Route.moderate_text_route
        (app_handler fun _ => ⟨"ok", false, false, false, false, false, none⟩) ≠ .ok p :=
  c7_bad_token_rejected_before_moderation "user-key" "wrong-key" Route.moderate_text_route
    (fun _ => ⟨"ok", false, false, false, false, false, none⟩) (by decide) (Or.inl rfl)

/-- C8 counterexample: the health route is NOT authentication-free — the
app registers `validate_api_key` as an app-wide dependency, so a health
request with a non-matching bearer token gets the 401 authorization
failure instead of the static ok payload. -/
theorem c8_health_requires_auth_counterexample :
    handle_request "user-key" "wrong-key" Route.health
        (app_handler fun _ => ⟨"ok", false, false, false, false, false, none⟩) =
      .error ⟨401, "Invalid user API key"⟩ ∧
    handle_request "user-key" "wrong-key" Route.health
        (app_handler fun _ => ⟨"ok", false, false, false, false, false, none⟩) ≠
      .ok (.healthOk health_check) := by
  constructor
  · simp [handle_request, validate_api_key, app_handler]
  · intro h
    simp [handle_request, validate_api_key, app_handler] at h

/-- C8 (amended): the health route sits behind the same app-wide auth
dependency as every other route: with a bearer token matching the
configured secret it returns the static payload binding "status" to
"ok", and with a non-matching token it returns the 401 authorization
failure. -/
theorem c8_health_route_behavior (secret credentials : String)
    (moderate : Route → ResultDict) :
    (credentials = secret →
      handle_request secret credentials Route.health (app_handler moderate) =
        .ok (.healthOk [("status", "ok")])) ∧
    (credentials ≠ secret →
      handle_request secret credentials Route.health (app_handler moderate) =
        .error ⟨401, "Invalid user API key"⟩) := by
  constructor
  · intro h
    subst h
    simp [handle_request, validate_api_key, app_handler, health_check]
  · intro h
    simp [handle_request, validate_api_key, h]

/-- Witness for C8's amended theorem: a matching and a non-matching
token against the health route. -/
theorem c8_health_route_behavior_witness :
    handle_request "user-key" "user-key" Route.health
        (app_handler fun _ => ⟨"ok", false, false, false, false, false, none⟩) =
      .ok (.healthOk [("status", "ok")]) ∧
    handle_request "user-key" "wrong-key" Route.health
        (app_handler fun _ => ⟨"ok", false, false, false, false, false, none⟩) =
      .error ⟨401, "Invalid user API key"⟩ :=
  ⟨(c8_health_route_behavior "user-key" "user-key"
      (fun _ => ⟨"ok", false, false, false, false, false, none⟩)).1 rfl,
   (c8_health_route_behavior "user-key" "wrong-key"
      (fun _ => ⟨"ok", false, false, false, false, false, none⟩)).2 (by decide)⟩

end Moderation
